import Mathlib

/-!
Shallow embedding of `src/main.py` (VPS Log Collector): the two line
parsers, the ingestion pass, and the run coordinator (cooldown + lock),
together with theorems settling the frozen claims about them.
-/

namespace InjestLogs

/-! ### Python string builtins, modelled character-by-character -/

/-- Whitespace characters recognised by Python `str.split()` / `str.strip()`
(ASCII subset: space, tab, newline, carriage return, vertical tab, form feed). -/
def pyIsSpace (c : Char) : Bool :=
  c == ' ' || c == '\t' || c == '\n' || c == '\r' || c == '\x0b' || c == '\x0c'

/-- Worker for `pySplit`: scans characters, accumulating the current token
(in reverse) in `acc`; whitespace flushes the token. -/
def splitWSAux : List Char → List Char → List String
  | [], acc => if acc.isEmpty then [] else [String.mk acc.reverse]
  | c :: cs, acc =>
    if pyIsSpace c then
      if acc.isEmpty then splitWSAux cs []
      else String.mk acc.reverse :: splitWSAux cs []
    else splitWSAux cs (c :: acc)

/-- Python `line.split()` with no argument: split on runs of whitespace,
dropping empty tokens. -/
def pySplit (s : String) : List String := splitWSAux s.data []

/-- Python `s.strip()`: remove leading and trailing whitespace. -/
def pyStrip (s : String) : String :=
  String.mk (((s.data.dropWhile pyIsSpace).reverse.dropWhile pyIsSpace).reverse)

/-- Python `s.replace('"', "")`: remove every double-quote character
(code point 34). -/
def stripQuotes (s : String) : String :=
  String.mk (s.data.filter (fun c => c.toNat != 34))

/-- Digit run of Python `int()`: digits with optional single underscores
between digits, accumulating the value. -/
def pyDigitsAux : Nat → List Char → Option Nat
  | acc, [] => some acc
  | acc, c :: rest =>
    if c.isDigit then pyDigitsAux (acc * 10 + (c.toNat - 48)) rest
    else if c == '_' then
      match rest with
      | [] => none
      | d :: rest2 =>
        if d.isDigit then pyDigitsAux (acc * 10 + (d.toNat - 48)) rest2
        else none
    else none

/-- Nonempty digit sequence (first character must be a digit). -/
def pyDigitsVal : List Char → Option Nat
  | [] => none
  | c :: rest => if c.isDigit then pyDigitsAux (c.toNat - 48) rest else none

/-- Python `int(s)` on a string: strip whitespace, optional sign, digits
(with underscore separators); `none` models the `ValueError`. -/
def pyInt (s : String) : Option Int :=
  match ((s.data.dropWhile pyIsSpace).reverse.dropWhile pyIsSpace).reverse with
  | '+' :: rest => (pyDigitsVal rest).map (fun n => (n : Int))
  | '-' :: rest => (pyDigitsVal rest).map (fun n => -(n : Int))
  | cs => (pyDigitsVal cs).map (fun n => (n : Int))

/-- Does `hay` start with `needle`? (Both as character lists.) -/
def startsWithCL : List Char → List Char → Bool
  | [], _ => true
  | _ :: _, [] => false
  | a :: as, b :: bs => a == b && startsWithCL as bs

/-- Substring containment on character lists. -/
def containsCL (needle : List Char) : List Char → Bool
  | [] => needle.isEmpty
  | b :: bs => startsWithCL needle (b :: bs) || containsCL needle bs

/-- Python `needle in hay` for strings: substring containment. -/
def pyContains (needle hay : String) : Bool := containsCL needle.data hay.data

/-- Python `t.count(".")`: number of dot characters in the token. -/
def countDots (s : String) : Nat := s.data.countP (fun c => c == '.')

/-- Index of the first token equal to `"for"`, mirroring
`line.split().index("for")` guarded by `"for" in line.split()`. -/
def findForIdx : List String → Option Nat
  | [] => none
  | t :: ts => if t == "for" then some 0 else (findForIdx ts).map (fun i => i + 1)

/-! ### Records and line parsers (`parse_nginx_log_line`, `parse_ssh_log_line`) -/

/-- Row of the `nginx_logs` table as produced by the parser
(the surrogate id and `created_at` are assigned by the store). -/
structure NginxRecord where
  remote_addr : String
  method : String
  path : String
  status_code : Int
  raw : String
deriving DecidableEq

/-- Row of the `ssh_logs` table as produced by the parser. -/
structure SSHRecord where
  user : Option String
  ip_address : Option String
  action : String
  raw : String
deriving DecidableEq

/-- `parse_nginx_log_line` from `src/main.py`: split on whitespace; any
`IndexError` on tokens 0/5/6/8 or `ValueError` from `int(parts[8])` is
caught by the `try`/`except` and yields `none`. -/
def parse_nginx_log_line (line : String) : Option NginxRecord :=
  let parts := pySplit line
  match parts[0]?, parts[5]?, parts[6]?, parts[8]? with
  | some a0, some a5, some a6, some a8 =>
    (pyInt a8).map (fun n =>
      { remote_addr := a0, method := stripQuotes a5, path := a6
        status_code := n, raw := pyStrip line })
  | _, _, _, _ => none

/-- `parse_ssh_log_line` from `src/main.py`: action by substring
containment, IP = first token with exactly three dots, user = token after
the first `"for"` token; the lookup `split()[idx + 1]` can raise
`IndexError`, caught by the `try`/`except` and yielding `none`. -/
def parse_ssh_log_line (line : String) : Option SSHRecord :=
  let action :=
    if pyContains "Accepted" line then "accepted"
    else if pyContains "Failed" line then "failed"
    else "unknown"
  let tokens := pySplit line
  let ip := tokens.find? (fun t => countDots t == 3)
  match findForIdx tokens with
  | none => some { user := none, ip_address := ip, action := action, raw := pyStrip line }
  | some idx =>
    match tokens[idx + 1]? with
    | some u => some { user := some u, ip_address := ip, action := action, raw := pyStrip line }
    | none => none

/-! ### Spec-side definitions (named from the spec's words, for comparison) -/

/-- Spec wording: action classified by substring containment. -/
def specAuthAction (line : String) : String :=
  if pyContains "Accepted" line then "accepted"
  else if pyContains "Failed" line then "failed"
  else "unknown"

/-- Spec wording: the first whitespace token containing exactly three
dot characters, absent if none. -/
def specAuthIP (line : String) : Option String :=
  (pySplit line).find? (fun t => countDots t == 3)

/-- Spec wording: the token immediately following the first standalone
token equal to `"for"`, absent when no such following token exists. -/
def specAuthUser (line : String) : Option String :=
  match findForIdx (pySplit line) with
  | none => none
  | some i => (pySplit line)[i + 1]?

/-- Does the line contain a `"for"` token whose first occurrence is the
last token? (The exact condition under which `split()[idx + 1]` raises.) -/
def forIsLast (line : String) : Bool :=
  match findForIdx (pySplit line) with
  | some i => i + 1 == (pySplit line).length
  | none => false

/-- Spec wording (claim C9): the input line with trailing whitespace
removed (leading whitespace kept). -/
def specRstrip (s : String) : String :=
  String.mk ((s.data.reverse.dropWhile pyIsSpace).reverse)

/-! ### Ingestion pass (`ingest_nginx_logs`, `ingest_ssh_logs`, `run_ingestion`)

The observable environment is a `World`: the two input files (absent or a
list of lines) and the two tables. A commit against the store may raise
(`…CommitFails`); that is the representative unhandled exception of the
per-source body. `IngestResult` additionally records, for one call, whether
the file handle and the store session were opened and whether each was
closed before control left the function (`ok = false` models the exception
propagating to the caller). -/

structure World where
  nginxFile : Option (List String)
  sshFile : Option (List String)
  nginxCommitFails : Bool
  sshCommitFails : Bool
  nginxTable : List NginxRecord
  sshTable : List SSHRecord
deriving DecidableEq

structure IngestResult where
  world : World
  sessionOpened : Bool
  sessionClosed : Bool
  fileOpened : Bool
  fileClosed : Bool
  ok : Bool
deriving DecidableEq

/-- `ingest_nginx_logs` from `src/main.py`: missing file → warn and
return; otherwise open a session, read and parse every line, `commit`
the parsed batch, then `close`. The `with open` block closes the file on
every exit path, but `db.close()` is only reached when `db.commit()`
returns normally; a commit exception leaves the table unchanged
(transaction not committed) and propagates. -/
def ingest_nginx_logs (w : World) : IngestResult :=
  match w.nginxFile with
  | none =>
    { world := w, sessionOpened := false, sessionClosed := false
      fileOpened := false, fileClosed := false, ok := true }
  | some lines =>
    if w.nginxCommitFails then
      { world := w, sessionOpened := true, sessionClosed := false
        fileOpened := true, fileClosed := true, ok := false }
    else
      { world := { w with nginxTable := w.nginxTable ++ lines.filterMap parse_nginx_log_line }
        sessionOpened := true, sessionClosed := true
        fileOpened := true, fileClosed := true, ok := true }

/-- `ingest_ssh_logs` from `src/main.py`: same shape as the nginx source. -/
def ingest_ssh_logs (w : World) : IngestResult :=
  match w.sshFile with
  | none =>
    { world := w, sessionOpened := false, sessionClosed := false
      fileOpened := false, fileClosed := false, ok := true }
  | some lines =>
    if w.sshCommitFails then
      { world := w, sessionOpened := true, sessionClosed := false
        fileOpened := true, fileClosed := true, ok := false }
    else
      { world := { w with sshTable := w.sshTable ++ lines.filterMap parse_ssh_log_line }
        sessionOpened := true, sessionClosed := true
        fileOpened := true, fileClosed := true, ok := true }

/-- Outcome of one `run_ingestion()` call: the resulting world, which of
the two source bodies were entered, and whether the call returned
normally (`ok = false` models an exception propagating out). -/
structure RunResult where
  world : World
  nginxRan : Bool
  sshRan : Bool
  ok : Bool
deriving DecidableEq

/-- `run_ingestion` from `src/main.py`: `ingest_nginx_logs()` then
`ingest_ssh_logs()`, with no `try`/`except` around either call — an
exception from the nginx source skips the ssh source entirely. -/
def run_ingestion (w : World) : RunResult :=
  let r1 := ingest_nginx_logs w
  if r1.ok then
    let r2 := ingest_ssh_logs r1.world
    { world := r2.world, nginxRan := true, sshRan := true, ok := r2.ok }
  else
    { world := r1.world, nginxRan := true, sshRan := false, ok := false }

/-- `GET /nginx/count`: `db.query(NginxLog).count()`. -/
def nginx_count (w : World) : Nat := w.nginxTable.length

/-- `GET /ssh/count`: `db.query(SSHLog).count()`. -/
def ssh_count (w : World) : Nat := w.sshTable.length

/-! ### Run coordinator (`manual_ingest`, `ingestion_loop`) -/

def INGEST_INTERVAL_SECONDS : Int := 60 * 60 * 24

def MANUAL_COOLDOWN_SECONDS : Int := 60

/-- Process-wide coordinator state: `_ingest_lock` (as a flag: is an
ingestion pass currently inside the lock) and `_last_manual_run`. -/
structure RunState where
  locked : Bool
  lastManualRun : Int
deriving DecidableEq

/-- `_last_manual_run = 0.0`, lock free: the state at process start. -/
def initialRunState : RunState := { locked := false, lastManualRun := 0 }

/-- The responses `POST /ingest` can produce: HTTP 429 (cooldown), HTTP
409 (lock held), the success body, or a propagated internal exception. -/
inductive ManualResponse where
  | cooldown429
  | conflict409
  | triggered
  | serverError
deriving DecidableEq

/-- `manual_ingest` from `src/main.py`: cooldown gate first (429, nothing
mutated), then non-blocking lock check (409, nothing mutated), else run
under the lock with `_last_manual_run = now` set inside the lock before
`run_ingestion()`; `async with` releases the lock on every exit path. -/
def manual_ingest (now : Int) (st : RunState) (w : World) :
    ManualResponse × RunState × World :=
  if now - st.lastManualRun < MANUAL_COOLDOWN_SECONDS then
    (ManualResponse.cooldown429, st, w)
  else if st.locked then
    (ManualResponse.conflict409, st, w)
  else
    let r := run_ingestion w
    ((if r.ok then ManualResponse.triggered else ManualResponse.serverError),
     { locked := false, lastManualRun := now }, r.world)

/-- One iteration of `ingestion_loop` from the moment the (blocking)
`async with _ingest_lock` acquires to its release: `run_ingestion()` with
no cooldown check and no access to `_last_manual_run`. -/
def scheduled_tick (st : RunState) (w : World) : RunState × World :=
  let r := run_ingestion w
  ({ st with locked := false }, r.world)

/-! ### Helper lemmas about the parsers -/

/-- A found `"for"` index is a valid index of the token list. -/
theorem findForIdx_lt {ts : List String} {i : Nat} (h : findForIdx ts = some i) :
    i < ts.length := by
  induction ts generalizing i with
  | nil => simp [findForIdx] at h
  | cons t ts ih =>
    by_cases ht : (t == "for") = true
    · simp [findForIdx, ht] at h
      simp [← h]
    · simp [findForIdx, ht] at h
      obtain ⟨j, hj, hji⟩ := h
      have := ih hj
      simp
      omega

/-- Characterisation of `parse_ssh_log_line`: it fails exactly when the
first `"for"` token is the last token, and otherwise produces the record
described field-by-field by the spec-side extractors. -/
theorem parse_ssh_eq (line : String) :
    parse_ssh_log_line line =
      if forIsLast line then none
      else some { user := specAuthUser line, ip_address := specAuthIP line
                  action := specAuthAction line, raw := pyStrip line } := by
  rcases hf : findForIdx (pySplit line) with _ | i
  · simp [parse_ssh_log_line, forIsLast, specAuthUser, specAuthIP, specAuthAction, hf]
  · rcases hu : (pySplit line)[i + 1]? with _ | u
    · have h1 : (pySplit line).length ≤ i + 1 := List.getElem?_eq_none_iff.mp hu
      have h2 : i < (pySplit line).length := findForIdx_lt hf
      have h3 : (i + 1 == (pySplit line).length) = true := by
        have : i + 1 = (pySplit line).length := by omega
        simp [this]
      simp [parse_ssh_log_line, forIsLast, hf, hu, h3]
    · have h2 : i + 1 < (pySplit line).length := (List.getElem?_eq_some.mp hu).1
      have h3 : (i + 1 == (pySplit line).length) = false := by
        simp
        omega
      simp [parse_ssh_log_line, forIsLast, specAuthUser, specAuthIP, specAuthAction, hf, hu, h3]

/-! ### Claim C3 -/

/-- C3: `parse_nginx_log_line` returns `none` whenever the line has fewer
than 9 whitespace tokens or token 8 does not parse as an integer;
otherwise it returns the record with remote address = token 0, method =
token 5 with quote characters stripped, path = token 6, status code = the
integer value of token 8 (failure is a silent skip: `none`, no error). -/
theorem C3_nginx_parse (line : String) :
    ((pySplit line).length < 9 → parse_nginx_log_line line = none) ∧
    (∀ t8, (pySplit line)[8]? = some t8 → pyInt t8 = none →
      parse_nginx_log_line line = none) ∧
    (∀ t8 n a0 a5 a6, (pySplit line)[0]? = some a0 → (pySplit line)[5]? = some a5 →
      (pySplit line)[6]? = some a6 → (pySplit line)[8]? = some t8 → pyInt t8 = some n →
      parse_nginx_log_line line =
        some { remote_addr := a0, method := stripQuotes a5, path := a6
               status_code := n, raw := pyStrip line }) := by
  refine ⟨?_, ?_, ?_⟩
  · intro hlen
    have h8 : (pySplit line)[8]? = none := List.getElem?_eq_none_iff.mpr (by omega)
    rcases h0 : (pySplit line)[0]? with _ | a0 <;>
      rcases h5 : (pySplit line)[5]? with _ | a5 <;>
      rcases h6 : (pySplit line)[6]? with _ | a6 <;>
      simp [parse_nginx_log_line, h0, h5, h6, h8]
  · intro t8 h8 hint
    rcases h0 : (pySplit line)[0]? with _ | a0 <;>
      rcases h5 : (pySplit line)[5]? with _ | a5 <;>
      rcases h6 : (pySplit line)[6]? with _ | a6 <;>
      simp [parse_nginx_log_line, h0, h5, h6, h8, hint]
  · intro t8 n a0 a5 a6 h0 h5 h6 h8 hint
    simp [parse_nginx_log_line, h0, h5, h6, h8, hint]

/-- Witness for C3 at concrete inputs: a 2-token line is skipped, a
9-token line with non-numeric token 8 is skipped, and a well-formed line
yields the described record. -/
theorem C3_nginx_parse_witness :
    parse_nginx_log_line "a b" = none ∧
    parse_nginx_log_line "a b c d e f g h x" = none ∧
    parse_nginx_log_line "1.2.3.4 - - [x y] \"GET /p HTTP/1.1\" 200" =
      some { remote_addr := "1.2.3.4", method := stripQuotes "\"GET", path := "/p"
             status_code := 200, raw := "1.2.3.4 - - [x y] \"GET /p HTTP/1.1\" 200" } := by
  refine ⟨(C3_nginx_parse "a b").1 (by decide),
          (C3_nginx_parse "a b c d e f g h x").2.1 "x" (by decide) (by decide), ?_⟩
  exact (C3_nginx_parse "1.2.3.4 - - [x y] \"GET /p HTTP/1.1\" 200").2.2
    "200" 200 "1.2.3.4" "\"GET" "/p" (by decide) (by decide) (by decide) (by decide) (by decide)

/-! ### Claim C4 (corrected) -/

/-- C4 counterexample: on a line whose first `"for"` token is the last
token, the parser does not produce a record with the user absent (as the
claim's "(absent otherwise)" requires) — the `IndexError` from
`split()[idx + 1]` is caught and the whole parse returns `none`. -/
theorem C4_counterexample :
    parse_ssh_log_line "Accepted password for" = none ∧
    parse_ssh_log_line "Accepted password for" ≠
      some { user := none, ip_address := none, action := "accepted"
             raw := "Accepted password for" } := by decide

/-- C4 (amended): the action is classified by substring containment, the
IP candidate is the first token with exactly three dots, and the user is
the token after the first `"for"` token; however, when the first `"for"`
token is the last token the parser returns `none` (the line is skipped)
instead of producing a record with the user absent. On the spec's sample
line it yields user `alice`, ip `10.0.0.5`, action `accepted`. -/
theorem C4_auth_fields :
    (∀ line : String,
      parse_ssh_log_line line =
        if forIsLast line then none
        else some { user := specAuthUser line, ip_address := specAuthIP line
                    action := specAuthAction line, raw := pyStrip line }) ∧
    parse_ssh_log_line
        "Jan 1 00:00:00 host sshd[1]: Accepted password for alice from 10.0.0.5 port 22" =
      some { user := some "alice", ip_address := some "10.0.0.5", action := "accepted"
             raw := "Jan 1 00:00:00 host sshd[1]: Accepted password for alice from 10.0.0.5 port 22" } :=
  ⟨parse_ssh_eq, by decide⟩

/-! ### Claim C9 (corrected) -/

/-- C9 counterexample: a parsed line with leading whitespace — the stored
`raw` is `line.strip()`, which removes the leading space as well, so it
differs from the line with only trailing whitespace removed. -/
theorem C9_counterexample :
    parse_nginx_log_line " a b c d e f g h 200" =
      some { remote_addr := "a", method := "f", path := "g", status_code := 200
             raw := "a b c d e f g h 200" } ∧
    specRstrip " a b c d e f g h 200" = " a b c d e f g h 200" ∧
    ("a b c d e f g h 200" : String) ≠ " a b c d e f g h 200" := by decide

/-- C9 (amended): on success the `raw` field equals the input line with
leading *and* trailing whitespace removed (Python `line.strip()`), not
merely trailing whitespace. -/
theorem C9_raw_strip (line : String) :
    ∀ r : NginxRecord, parse_nginx_log_line line = some r → r.raw = pyStrip line := by
  intro r h
  rcases h0 : (pySplit line)[0]? with _ | a0 <;>
    rcases h5 : (pySplit line)[5]? with _ | a5 <;>
    rcases h6 : (pySplit line)[6]? with _ | a6 <;>
    rcases h8 : (pySplit line)[8]? with _ | a8 <;>
    simp [parse_nginx_log_line, h0, h5, h6, h8] at h
  obtain ⟨n, hn, hr⟩ := h
  simp [← hr]

/-- Witness for C9 (amended) at a concrete parsed line. -/
theorem C9_raw_strip_witness :
    ({ remote_addr := "a", method := "f", path := "g", status_code := 7
       raw := "a b c d e f g h 7" } : NginxRecord).raw = pyStrip "a b c d e f g h 7" :=
  C9_raw_strip "a b c d e f g h 7" _ (by decide)

/-! ### Claim C10 -/

/-- C10: `parse_ssh_log_line` returns `none` exactly when the token list
contains a `"for"` token whose first occurrence is the last token; every
other line (the empty line included, yielding action `unknown` with user
and IP absent) produces a record, and the user comes from after the
*first* `"for"` occurrence. -/
theorem C10_ssh_none_iff :
    (∀ line : String, (parse_ssh_log_line line = none ↔ forIsLast line = true)) ∧
    parse_ssh_log_line "" =
      some { user := none, ip_address := none, action := "unknown", raw := "" } ∧
    (∀ line : String, ∀ r : SSHRecord,
      parse_ssh_log_line line = some r → r.user = specAuthUser line) := by
  refine ⟨?_, by decide, ?_⟩
  · intro line
    rw [parse_ssh_eq]
    by_cases h : forIsLast line = true
    · simp [h]
    · simp [h]
  · intro line r h
    rw [parse_ssh_eq] at h
    by_cases hf : forIsLast line = true
    · simp [hf] at h
    · simp [hf] at h
      simp [← h]

/-- Witness for C10: a line ending in `"for"` is skipped; a record-producing
line with two `"for"` tokens takes the user from after the first one. -/
theorem C10_ssh_none_iff_witness :
    parse_ssh_log_line "x for" = none ∧
    ({ user := some "u", ip_address := none, action := "unknown"
       raw := "a for u for w" } : SSHRecord).user = specAuthUser "a for u for w" := by
  refine ⟨(C10_ssh_none_iff.1 "x for").mpr (by decide), ?_⟩
  exact C10_ssh_none_iff.2.2 "a for u for w" _ (by decide)

/-! ### Claim C1 -/

/-- C1: manual-trigger admission evaluates the cooldown gate first (429,
state and world untouched, the lock never consulted — the rejection is the
same whatever the lock's state), then the lock gate (409, state and world
untouched, `_last_manual_run` not mutated), and otherwise admits the
request: `_last_manual_run` is set to `now`, `run_ingestion()` executes
under the lock (released afterwards), and — when the run returns
normally — success is reported. -/
theorem C1_manual_admission (now : Int) (st : RunState) (w : World) :
    (now - st.lastManualRun < MANUAL_COOLDOWN_SECONDS →
      manual_ingest now st w = (ManualResponse.cooldown429, st, w)) ∧
    (MANUAL_COOLDOWN_SECONDS ≤ now - st.lastManualRun → st.locked = true →
      manual_ingest now st w = (ManualResponse.conflict409, st, w)) ∧
    (MANUAL_COOLDOWN_SECONDS ≤ now - st.lastManualRun → st.locked = false →
      (manual_ingest now st w).2.1 = { locked := false, lastManualRun := now } ∧
      (manual_ingest now st w).2.2 = (run_ingestion w).world ∧
      ((run_ingestion w).ok = true →
        (manual_ingest now st w).1 = ManualResponse.triggered)) := by
  refine ⟨?_, ?_, ?_⟩
  · intro h
    simp [manual_ingest, h]
  · intro h hl
    simp [manual_ingest, not_lt.mpr h, hl]
  · intro h hl
    refine ⟨?_, ?_, ?_⟩
    · simp [manual_ingest, not_lt.mpr h, hl]
    · simp [manual_ingest, not_lt.mpr h, hl]
    · intro hok
      simp [manual_ingest, not_lt.mpr h, hl, hok]

/-- Witness for C1: within cooldown (even with the lock held) → 429; past
cooldown with the lock held → 409; past cooldown with the lock free →
timestamp updated to `now` and success reported. -/
theorem C1_manual_admission_witness :
    manual_ingest 5 { locked := true, lastManualRun := 0 }
        { nginxFile := none, sshFile := none, nginxCommitFails := false
          sshCommitFails := false, nginxTable := [], sshTable := [] } =
      (ManualResponse.cooldown429, { locked := true, lastManualRun := 0 },
        { nginxFile := none, sshFile := none, nginxCommitFails := false
          sshCommitFails := false, nginxTable := [], sshTable := [] }) ∧
    manual_ingest 100 { locked := true, lastManualRun := 0 }
        { nginxFile := none, sshFile := none, nginxCommitFails := false
          sshCommitFails := false, nginxTable := [], sshTable := [] } =
      (ManualResponse.conflict409, { locked := true, lastManualRun := 0 },
        { nginxFile := none, sshFile := none, nginxCommitFails := false
          sshCommitFails := false, nginxTable := [], sshTable := [] }) ∧
    (manual_ingest 100 { locked := false, lastManualRun := 0 }
        { nginxFile := none, sshFile := none, nginxCommitFails := false
          sshCommitFails := false, nginxTable := [], sshTable := [] }).2.1 =
      { locked := false, lastManualRun := 100 } ∧
    (manual_ingest 100 { locked := false, lastManualRun := 0 }
        { nginxFile := none, sshFile := none, nginxCommitFails := false
          sshCommitFails := false, nginxTable := [], sshTable := [] }).1 =
      ManualResponse.triggered := by
  refine ⟨(C1_manual_admission 5 _ _).1 (by decide),
          (C1_manual_admission 100 _ _).2.1 (by decide) rfl, ?_, ?_⟩
  · exact ((C1_manual_admission 100 _ _).2.2 (by decide) rfl).1
  · exact ((C1_manual_admission 100 _ _).2.2 (by decide) rfl).2.2 (by decide)

/-! ### Claim C2 -/

/-- C2: the scheduled path never applies the cooldown and never touches
`_last_manual_run` — one loop iteration's effect on the world equals
`run_ingestion` regardless of the stored timestamp (so the admission and
effect are independent of it), the timestamp is unchanged by the tick,
and the manual path leaves the timestamp unchanged on either rejection. -/
theorem C2_scheduled_frame (st : RunState) (w : World) (now : Int) :
    (scheduled_tick st w).2 = (run_ingestion w).world ∧
    (scheduled_tick st w).1.lastManualRun = st.lastManualRun ∧
    (∀ t : Int, (scheduled_tick { st with lastManualRun := t } w).2 = (scheduled_tick st w).2) ∧
    ((manual_ingest now st w).1 = ManualResponse.cooldown429 ∨
        (manual_ingest now st w).1 = ManualResponse.conflict409 →
      (manual_ingest now st w).2.1.lastManualRun = st.lastManualRun) := by
  refine ⟨rfl, rfl, fun t => rfl, ?_⟩
  intro h
  by_cases hc : now - st.lastManualRun < MANUAL_COOLDOWN_SECONDS
  · simp [manual_ingest, hc]
  · by_cases hl : st.locked
    · simp [manual_ingest, hc, hl]
    · rcases hok : (run_ingestion w).ok with _ | _ <;>
        rcases h with h | h <;>
        simp [manual_ingest, hc, hl, hok] at h

/-- Witness for C2: a cooldown-rejected manual trigger leaves the
timestamp unchanged. -/
theorem C2_scheduled_frame_witness :
    (manual_ingest 5 initialRunState
        { nginxFile := none, sshFile := none, nginxCommitFails := false
          sshCommitFails := false, nginxTable := [], sshTable := [] }).2.1.lastManualRun =
      initialRunState.lastManualRun :=
  (C2_scheduled_frame initialRunState _ 5).2.2.2 (Or.inl (by decide))

/-! ### Claim C5 (corrected) -/

/-- World for the C5 counterexample: the nginx commit raises, and the ssh
file holds a line that a run would have persisted. -/
def wC5 : World :=
  { nginxFile := some ["1.2.3.4 - - [x y] \"GET /p HTTP/1.1\" 200"]
    sshFile := some ["Accepted password for alice from 10.0.0.5 port 22"]
    nginxCommitFails := true, sshCommitFails := false
    nginxTable := [], sshTable := [] }

/-- C5 counterexample: when the web-access source fails with an exception,
the auth source is *not* executed — `run_ingestion` has no `try`/`except`,
so the exception propagates before `ingest_ssh_logs()` is reached, and the
auth record that a run would have appended is absent. -/
theorem C5_counterexample :
    (ingest_nginx_logs wC5).ok = false ∧
    (run_ingestion wC5).sshRan = false ∧
    (run_ingestion wC5).world.sshTable = [] ∧
    (ingest_ssh_logs wC5).world.sshTable ≠ [] := by decide

/-- C5 (amended): the sources are *not* fault-isolated — an exception in
the web-access source aborts the run with the auth source never entered;
the auth source runs exactly when the web-access source returns normally
(which it does on parse failures and on a missing file). -/
theorem C5_fault_propagation (w : World) :
    ((ingest_nginx_logs w).ok = false →
      run_ingestion w =
        { world := (ingest_nginx_logs w).world, nginxRan := true
          sshRan := false, ok := false }) ∧
    ((ingest_nginx_logs w).ok = true → (run_ingestion w).sshRan = true) := by
  constructor <;> intro h <;> simp [run_ingestion, h]

/-- Witness for C5 (amended): the failing world aborts before the auth
source; a world whose nginx source succeeds reaches the auth source. -/
theorem C5_fault_propagation_witness :
    run_ingestion wC5 =
      { world := wC5, nginxRan := true, sshRan := false, ok := false } ∧
    (run_ingestion
        { nginxFile := none, sshFile := none, nginxCommitFails := false
          sshCommitFails := false, nginxTable := [], sshTable := [] }).sshRan = true := by
  constructor
  · exact (C5_fault_propagation wC5).1 (by decide)
  · exact (C5_fault_propagation _).2 (by decide)

/-! ### Claim C6 (corrected) -/

/-- World for the C6 counterexample: both commits raise. -/
def wC6 : World :=
  { nginxFile := some ["boom"], sshFile := some ["x"]
    nginxCommitFails := true, sshCommitFails := true
    nginxTable := [], sshTable := [] }

/-- C6 counterexample: on a commit exception the store session is *not*
closed — `db.close()` sits after `db.commit()` with no `try`/`finally`,
so the exception skips it (for both sources). -/
theorem C6_counterexample :
    (ingest_nginx_logs wC6).sessionOpened = true ∧
    (ingest_nginx_logs wC6).ok = false ∧
    (ingest_nginx_logs wC6).sessionClosed = false ∧
    (ingest_ssh_logs wC6).sessionOpened = true ∧
    (ingest_ssh_logs wC6).sessionClosed = false := by decide

/-- C6 (amended): the file handle (opened via `with`) is closed on every
exit path, but the store session is closed only on the success path — an
exception during persisting leaves the session unclosed. -/
theorem C6_resource_release (w : World) :
    ((ingest_nginx_logs w).fileClosed = (ingest_nginx_logs w).fileOpened) ∧
    ((ingest_nginx_logs w).sessionClosed =
      ((ingest_nginx_logs w).sessionOpened && (ingest_nginx_logs w).ok)) ∧
    ((ingest_ssh_logs w).fileClosed = (ingest_ssh_logs w).fileOpened) ∧
    ((ingest_ssh_logs w).sessionClosed =
      ((ingest_ssh_logs w).sessionOpened && (ingest_ssh_logs w).ok)) := by
  rcases w with ⟨nf, sf, ncf, scf, nt, st⟩
  rcases nf with _ | nl <;> rcases sf with _ | sl <;>
    rcases ncf with _ | _ <;> rcases scf with _ | _ <;>
    simp [ingest_nginx_logs, ingest_ssh_logs]

/-! ### Claim C7 -/

/-- C7: against a web-access log whose lines yield `N` parsed records
(the malformed remainder skipped), one run stores exactly `N` records and
the count endpoint reports `N`; ingestion is not idempotent — a second
run over the unchanged file appends the same `N` records again, so the
count reports `2 * N`. -/
theorem C7_count_duplication (lines : List String) (w : World)
    (h1 : w.nginxFile = some lines) (h2 : w.nginxCommitFails = false)
    (h3 : w.nginxTable = []) :
    nginx_count (run_ingestion w).world = (lines.filterMap parse_nginx_log_line).length ∧
    nginx_count (run_ingestion (run_ingestion w).world).world =
      2 * (lines.filterMap parse_nginx_log_line).length := by
  rcases w with ⟨nf, sf, ncf, scf, nt, st⟩
  simp only [World.nginxFile] at h1
  simp only [World.nginxCommitFails] at h2
  simp only [World.nginxTable] at h3
  subst h1; subst h2; subst h3
  rcases sf with _ | sl <;> rcases scf with _ | _ <;>
    simp [run_ingestion, ingest_nginx_logs, ingest_ssh_logs, nginx_count, two_mul]

/-- Witness for C7: a file with one well-formed and one malformed line
gives count 1 after one run and count 2 after two runs. -/
theorem C7_count_duplication_witness :
    nginx_count (run_ingestion
      { nginxFile := some ["1.2.3.4 - - [x y] \"GET /p HTTP/1.1\" 200", "short line"]
        sshFile := none, nginxCommitFails := false, sshCommitFails := false
        nginxTable := [], sshTable := [] }).world = 1 ∧
    nginx_count (run_ingestion (run_ingestion
      { nginxFile := some ["1.2.3.4 - - [x y] \"GET /p HTTP/1.1\" 200", "short line"]
        sshFile := none, nginxCommitFails := false, sshCommitFails := false
        nginxTable := [], sshTable := [] }).world).world = 2 := by
  have h := C7_count_duplication
    ["1.2.3.4 - - [x y] \"GET /p HTTP/1.1\" 200", "short line"]
    { nginxFile := some ["1.2.3.4 - - [x y] \"GET /p HTTP/1.1\" 200", "short line"]
      sshFile := none, nginxCommitFails := false, sshCommitFails := false
      nginxTable := [], sshTable := [] } rfl rfl rfl
  exact ⟨h.1.trans (by decide), h.2.trans (by decide)⟩

/-! ### Claim C8 -/

/-- C8: a missing input file makes that source's ingestion a no-op — the
world is unchanged (zero new records), the call returns normally (no
error surfaced, only a warning logged), and the other source still runs. -/
theorem C8_absent_file (w : World) :
    (w.nginxFile = none →
      (ingest_nginx_logs w).world = w ∧ (ingest_nginx_logs w).ok = true ∧
      (run_ingestion w).sshRan = true ∧
      (run_ingestion w).world = (ingest_ssh_logs w).world) ∧
    (w.sshFile = none →
      (ingest_ssh_logs w).world = w ∧ (ingest_ssh_logs w).ok = true ∧
      (run_ingestion w).nginxRan = true) := by
  constructor
  · intro h
    have hi : ingest_nginx_logs w =
        { world := w, sessionOpened := false, sessionClosed := false
          fileOpened := false, fileClosed := false, ok := true } := by
      simp [ingest_nginx_logs, h]
    simp [run_ingestion, hi]
  · intro h
    have hi : ingest_ssh_logs w =
        { world := w, sessionOpened := false, sessionClosed := false
          fileOpened := false, fileClosed := false, ok := true } := by
      simp [ingest_ssh_logs, h]
    refine ⟨by simp [hi], by simp [hi], ?_⟩
    rcases hok : (ingest_nginx_logs w).ok with _ | _ <;> simp [run_ingestion, hok]

/-- Witness for C8: nginx file absent, ssh file present — nothing stored
for nginx, no error, and the ssh source still runs (and persists). -/
theorem C8_absent_file_witness :
    (ingest_nginx_logs
      { nginxFile := none, sshFile := some ["Failed password for bob from 1.2.3.4 port 22"]
        nginxCommitFails := false, sshCommitFails := false
        nginxTable := [], sshTable := [] }).world =
      { nginxFile := none, sshFile := some ["Failed password for bob from 1.2.3.4 port 22"]
        nginxCommitFails := false, sshCommitFails := false
        nginxTable := [], sshTable := [] } ∧
    (ingest_nginx_logs
      { nginxFile := none, sshFile := some ["Failed password for bob from 1.2.3.4 port 22"]
        nginxCommitFails := false, sshCommitFails := false
        nginxTable := [], sshTable := [] }).ok = true ∧
    (run_ingestion
      { nginxFile := none, sshFile := some ["Failed password for bob from 1.2.3.4 port 22"]
        nginxCommitFails := false, sshCommitFails := false
        nginxTable := [], sshTable := [] }).sshRan = true := by
  have h := (C8_absent_file
    { nginxFile := none, sshFile := some ["Failed password for bob from 1.2.3.4 port 22"]
      nginxCommitFails := false, sshCommitFails := false
      nginxTable := [], sshTable := [] }).1 rfl
  exact ⟨h.1, h.2.1, h.2.2.1⟩

end InjestLogs
